import Mathlib

/-!
Verification development for the Sputnik IoT sensor firmware
(`sputnik.ino` and its revision `unnamed/part_000`, plus the legacy
`Sputnik.ino` sketch).

Shallow embedding conventions:
* C `float` values are modelled as `ℚ`; a value that may be `NAN` is
  modelled as `Option ℚ`, with `none` standing for `NAN` (`isnan x`
  becomes `x = none`).
* The two fixed C arrays `temperatureBuffer` / `humidityBuffer` are
  modelled as total maps `ℕ → Option ℚ`; the firmware's capacity
  constant `DATA_BUFFER_SIZE = 15` is kept separately, so an
  out-of-bounds array write in the C code shows up here as a write at
  an index `≥ DATA_BUFFER_SIZE`.
* The network environment of a POST attempt (WiFi status, the result
  of `httpClient.begin`, and the `int` returned by `httpClient.POST`)
  is an explicit input record `PostEnv`.
-/

/-- Firmware constant: `const int DATA_BUFFER_SIZE = 15`. -/
def DATA_BUFFER_SIZE : ℕ := 15

/-- Firmware constant: `const int SAMPLING_INTERVAL_SEC = 60`. -/
def SAMPLING_INTERVAL_SEC : ℕ := 60

/-- Firmware constant: `const int REPORTING_INTERVAL_MIN = 15`. -/
def REPORTING_INTERVAL_MIN : ℕ := 15

/-- The mutable globals of the sketch that the reporting engine touches:
the two sample buffers, `bufferIndex`, and the Arduino IoT Cloud mirror
variables `dhtTemp` / `dhtHumi` (bound in `thingProperties.h`). -/
structure EngineState where
  temperatureBuffer : ℕ → Option ℚ
  humidityBuffer : ℕ → Option ℚ
  bufferIndex : ℕ
  dhtTemp : Option ℚ
  dhtHumi : Option ℚ

/-- Temperature validation in `collectSensorData` (sputnik.ino lines
207-212): `if (isnan(temperature) || temperature < -40.0 || temperature > 85.0)
stored_temp = NAN; else stored_temp = temperature;`. -/
def validateTemp (t : Option ℚ) : Option ℚ :=
  match t with
  | none => none
  | some v => if v < -40 ∨ v > 85 then none else some v

/-- Humidity validation in `collectSensorData` (sputnik.ino lines
214-219): `if (isnan(humidity) || humidity < 0.0 || humidity > 100.0)
stored_humi = NAN; else stored_humi = humidity;`. -/
def validateHumidity (h : Option ℚ) : Option ℚ :=
  match h with
  | none => none
  | some v => if v < 0 ∨ v > 100 then none else some v

/-- `collectSensorData` (sputnik.ino lines 199-241): validate the raw
DHT reading per field, store the (possibly `NAN`) values at
`bufferIndex`, update the cloud mirrors `dhtHumi` / `dhtTemp` only when
the corresponding stored value is not `NAN`, then `bufferIndex++`.
The raw reading is passed in as `temperature` / `humidity`
(`none` = the DHT read returned `NAN`). -/
def collectSensorData (s : EngineState) (temperature humidity : Option ℚ) :
    EngineState :=
  { temperatureBuffer := fun i =>
      if i = s.bufferIndex then validateTemp temperature
      else s.temperatureBuffer i
    humidityBuffer := fun i =>
      if i = s.bufferIndex then validateHumidity humidity
      else s.humidityBuffer i
    bufferIndex := s.bufferIndex + 1
    dhtTemp :=
      if (validateTemp temperature).isSome then validateTemp temperature
      else s.dhtTemp
    dhtHumi :=
      if (validateHumidity humidity).isSome then validateHumidity humidity
      else s.dhtHumi }

/-- One iteration of the averaging loop in `postAveragedDataToGoogleSheet`
(sputnik.ino lines 253-265): accumulate `(sumTemperature, sumHumidity,
validReadingsCount)`, counting buffer slot `i` only when both fields
are non-`NAN` ("pair must be valid"). -/
def aggStep (s : EngineState) (acc : ℚ × ℚ × ℕ) (i : ℕ) : ℚ × ℚ × ℕ :=
  match s.temperatureBuffer i, s.humidityBuffer i with
  | some t, some h => (acc.1 + t, acc.2.1 + h, acc.2.2 + 1)
  | _, _ => acc

/-- The averaging loop run over buffer slots `0, …, n-1`. -/
def aggregateUpTo (s : EngineState) (n : ℕ) : ℚ × ℚ × ℕ :=
  (List.range n).foldl (aggStep s) (0, 0, 0)

/-- The averaging loop of `postAveragedDataToGoogleSheet`, over the
whole occupied part of the buffer (`for (int i = 0; i < bufferIndex; ++i)`). -/
def aggregate (s : EngineState) : ℚ × ℚ × ℕ :=
  aggregateUpTo s s.bufferIndex

/-- Specification-side view of the buffer slots `0, …, n-1` whose
temperature and humidity are both valid, as a list of pairs. -/
def validPairsUpTo (s : EngineState) (n : ℕ) : List (ℚ × ℚ) :=
  (List.range n).filterMap fun i =>
    match s.temperatureBuffer i, s.humidityBuffer i with
    | some t, some h => some (t, h)
    | _, _ => none

/-- Specification-side view: the valid pairs among the occupied slots. -/
def validPairs (s : EngineState) : List (ℚ × ℚ) :=
  validPairsUpTo s s.bufferIndex

/-- The `validReadingsCount` computed by the averaging loop. -/
def validReadingsCount (s : EngineState) : ℕ :=
  (aggregate s).2.2

/-- Buffer clearing as the firmware performs it (sputnik.ino lines
271-274 and 322-325): set every occupied slot to `NAN` and reset
`bufferIndex` to `0`. -/
def clearBuffer (s : EngineState) : EngineState :=
  { s with
    temperatureBuffer := fun i =>
      if i < s.bufferIndex then none else s.temperatureBuffer i
    humidityBuffer := fun i =>
      if i < s.bufferIndex then none else s.humidityBuffer i
    bufferIndex := 0 }

/-- The averages computed at sputnik.ino lines 278-279:
`averageTemperature = sumTemperature / validReadingsCount` and likewise
for humidity. -/
def postAverages (s : EngineState) : ℚ × ℚ :=
  ((aggregate s).1 / ((aggregate s).2.2 : ℚ),
   (aggregate s).2.1 / ((aggregate s).2.2 : ℚ))

/-- The network environment a POST attempt runs in: whether
`WiFi.status() == WL_CONNECTED`, whether `httpClient.begin` succeeds,
and the `int` that `httpClient.POST` returns (`> 0` is an HTTP status
code, `≤ 0` a transport-level error code). -/
structure PostEnv where
  wifiConnected : Bool
  httpBeginSuccess : Bool
  httpResponseCode : Int

/-- What happened during one call of `postAveragedDataToGoogleSheet`. -/
inductive PostOutcome where
  | emptyBuffer : PostOutcome
  | noValidPairs : PostOutcome
  | wifiNotConnected : PostOutcome
  | httpBeginFailed : PostOutcome
  | transportError : Int → PostOutcome
  | httpFailure : Int → PostOutcome
  | success : Int → PostOutcome
deriving DecidableEq

/-- Result of one call of `postAveragedDataToGoogleSheet`: the engine
state it leaves behind, which exit path was taken, and the averages iff
the division at lines 278-279 was reached (`none` on the two early
returns that precede it). -/
structure PostResult where
  state : EngineState
  outcome : PostOutcome
  computedAverages : Option (ℚ × ℚ)

/-- `postAveragedDataToGoogleSheet` (sputnik.ino lines 243-338):
1. `bufferIndex == 0` → return, nothing touched;
2. averaging loop; `validReadingsCount == 0` → clear the buffer, return;
3. compute the averages (division guarded by step 2);
4. `WiFi.status() != WL_CONNECTED` → return, buffer retained;
5. `httpClient.begin` failed → return, buffer retained;
6. `POST` returned `> 0`: status `200` (`HTTP_CODE_OK`) or `3xx` →
   clear the buffer; any other status → buffer retained;
7. `POST` returned `≤ 0` (transport error) → buffer retained. -/
def isSuccessStatus (code : Int) : Bool :=
  code == 200 || (300 ≤ code && code < 400)

def postAveragedDataToGoogleSheet (s : EngineState) (env : PostEnv) :
    PostResult :=
  if s.bufferIndex = 0 then ⟨s, .emptyBuffer, none⟩
  else if (aggregate s).2.2 = 0 then ⟨clearBuffer s, .noValidPairs, none⟩
  else if env.wifiConnected = false then
    ⟨s, .wifiNotConnected, some (postAverages s)⟩
  else if env.httpBeginSuccess = false then
    ⟨s, .httpBeginFailed, some (postAverages s)⟩
  else if 0 < env.httpResponseCode then
    if isSuccessStatus env.httpResponseCode then
      ⟨clearBuffer s, .success env.httpResponseCode, some (postAverages s)⟩
    else ⟨s, .httpFailure env.httpResponseCode, some (postAverages s)⟩
  else ⟨s, .transportError env.httpResponseCode, some (postAverages s)⟩

/-- Unsigned 32-bit subtraction `a - b` as C performs it on
`unsigned long` (`millis()` arithmetic); the stored operands are
already reduced mod `2^32`. -/
def usub32 (a b : ℕ) : ℕ :=
  (a % 2 ^ 32 + 2 ^ 32 - b % 2 ^ 32) % 2 ^ 32

/-- The loop-level mutable state of `sputnik.ino`: the engine globals
plus `previousSampleMillis`. -/
structure LoopState where
  engine : EngineState
  previousSampleMillis : ℕ

/-- Inputs one iteration of `loop()` observes: whether `getLocalTime`
succeeded and what it returned, the current `millis()`, the raw DHT
reading `collectSensorData` would obtain, and the network environment
of a potential POST. -/
structure TickInput where
  timeAvailable : Bool
  tm_sec : ℕ
  tm_min : ℕ
  millis : ℕ
  temperature : Option ℚ
  humidity : Option ℚ
  env : PostEnv

/-- One iteration of `loop()` in `sputnik.ino` (lines 100-132).
If NTP time is unavailable: sample every `SAMPLING_INTERVAL_SEC * 1000`
milliseconds of `millis()` and, when the buffer has reached
`DATA_BUFFER_SIZE`, attempt a POST. If NTP time is available: sample
when `tm_sec == 0` and at least `SAMPLING_INTERVAL_SEC * 1000 - 5000`
milliseconds have elapsed, and POST when
`tm_min % REPORTING_INTERVAL_MIN == 0`. -/
def loopTick (s : LoopState) (inp : TickInput) : LoopState :=
  if inp.timeAvailable = false then
    if SAMPLING_INTERVAL_SEC * 1000 ≤ usub32 inp.millis s.previousSampleMillis then
      let e := collectSensorData s.engine inp.temperature inp.humidity
      let e' := if DATA_BUFFER_SIZE ≤ e.bufferIndex then
          (postAveragedDataToGoogleSheet e inp.env).state
        else e
      ⟨e', inp.millis⟩
    else s
  else
    if inp.tm_sec = 0 ∧
        SAMPLING_INTERVAL_SEC * 1000 - 5000 ≤ usub32 inp.millis s.previousSampleMillis then
      let e := collectSensorData s.engine inp.temperature inp.humidity
      let e' := if inp.tm_min % REPORTING_INTERVAL_MIN = 0 then
          (postAveragedDataToGoogleSheet e inp.env).state
        else e
      ⟨e', inp.millis⟩
    else s

/-- The engine globals right after `setup()`: both buffers filled with
`NAN` (lines 87-90), `bufferIndex = 0`, cloud mirrors at their
`thingProperties.h` default `0`. -/
def initEngine : EngineState :=
  ⟨fun _ => none, fun _ => none, 0, some 0, some 0⟩

/-- The loop state right after `setup()`: `previousSampleMillis = 0`. -/
def initLoopState : LoopState :=
  ⟨initEngine, 0⟩

/-- States of the control loop reachable from the post-`setup()` state
by iterating `loop()` under arbitrary inputs. -/
inductive Reachable : LoopState → Prop where
  | init : Reachable initLoopState
  | step : ∀ (s : LoopState) (inp : TickInput),
      Reachable s → Reachable (loopTick s inp)

/-- A concrete input schedule: clock never synchronized, one valid
reading (25 °C, 50 %) per 60-second fallback tick, WiFi disconnected
whenever a POST is attempted. -/
def c1Input (k : ℕ) : TickInput :=
  { timeAvailable := false
    tm_sec := 0
    tm_min := 0
    millis := 60000 * (k + 1)
    temperature := some 25
    humidity := some 50
    env := { wifiConnected := false, httpBeginSuccess := false, httpResponseCode := 0 } }

/-- The trace of the control loop under the `c1Input` schedule. -/
def c1Trace : ℕ → LoopState
  | 0 => initLoopState
  | n + 1 => loopTick (c1Trace n) (c1Input n)

/-- The magnitude of `x` rounded (half away from zero) to hundredths,
as an integer number of hundredths: `⌊|x| * 100 + 1/2⌋` computed on the
numerator and denominator. -/
def round2 (x : ℚ) : ℕ :=
  (200 * x.num.natAbs + x.den) / (2 * x.den)

/-- Model of C's `%.2f` formatting of a finite value: round the
magnitude to hundredths, print an optional minus sign, the integer
digits, a dot and exactly two fractional digits. -/
def fmt2 (x : ℚ) : String :=
  (if x < 0 then "-" else "") ++
    Nat.repr (round2 x / 100) ++ "." ++
    (if round2 x % 100 < 10 then "0" else "") ++
    Nat.repr (round2 x % 100)

/-- The JSON payload built by `snprintf(jsonPayload, sizeof(jsonPayload),
"..."): sputnik.ino lines 301-304; the constant skeleton plus the two
`%.2f`-formatted averages. The destination buffer is
`char jsonPayload[128]`, so the payload is untruncated iff this string
is shorter than 128 characters (one byte is the terminating NUL). -/
def jsonPayload (avgT avgH : ℚ) : String :=
  "\x7b\"temperature\":" ++ fmt2 avgT ++ ",\"humidity\":" ++ fmt2 avgH ++
    ",\"mcu\":\"sputnik1\"\x7d"

/-- Mirror update of the legacy `Sputnik.ino` loop (lines 42-43):
`dhtHumi = dht.readHumidity(); dhtTemp = dht.readTemperature();` —
the raw reading is assigned unconditionally, with no validity guard.
Arguments: current mirror values, then the raw reading; result: the
mirror values after the tick. -/
def legacyLoopSample (dhtTemp dhtHumi temperature humidity : Option ℚ) :
    Option ℚ × Option ℚ :=
  (temperature, humidity)

/-- Sampling guard of the legacy `Sputnik.ino` loop (line 38):
`if (timeinfo.tm_sec == 0 || millis() - previousMillis >= 60000)`. -/
def legacyShouldSample (tm_sec millis previousMillis : ℕ) : Bool :=
  tm_sec == 0 || 60000 ≤ usub32 millis previousMillis

/-- Sampling guard plus debounce state of the revised loop in
`unnamed/part_000` (lines 102, 123, 136): it fires when
`tm_sec == 0 && lastSecond != 0`, and each tick ends with
`lastSecond = currentTime.tm_sec`. `alignedFireCount l secs` counts how
many of the consecutive ticks observing the seconds-values `secs`
invoke `collectSensorData`, starting from `lastSecond = l`. -/
def alignedFireCount : Int → List ℕ → ℕ
  | _, [] => 0
  | l, sec :: rest =>
    (if sec == 0 && l != 0 then 1 else 0) + alignedFireCount (Int.ofNat sec) rest



/-- Concrete buffer from the specification scenario:
[(20.0,50.0), (NAN,60.0), (22.0,NAN), (24.0,52.0)]. -/
def scenarioState : EngineState :=
  { temperatureBuffer := fun i =>
      if i = 0 then some 20 else if i = 2 then some 22
      else if i = 3 then some 24 else none
    humidityBuffer := fun i =>
      if i = 0 then some 50 else if i = 1 then some 60
      else if i = 3 then some 52 else none
    bufferIndex := 4
    dhtTemp := some 0
    dhtHumi := some 0 }

/-- Concrete buffer holding one valid sample (25.0 degC, 50.0 %). -/
def sampleState1 : EngineState :=
  { temperatureBuffer := fun i => if i = 0 then some 25 else none
    humidityBuffer := fun i => if i = 0 then some 50 else none
    bufferIndex := 1
    dhtTemp := some 25
    dhtHumi := some 50 }

/-- Concrete buffer with two samples and no valid pair: slot 0 has a
valid temperature but `NAN` humidity, slot 1 the reverse. -/
def noPairState : EngineState :=
  { temperatureBuffer := fun i => if i = 0 then some 21 else none
    humidityBuffer := fun i => if i = 1 then some 60 else none
    bufferIndex := 2
    dhtTemp := some 0
    dhtHumi := some 0 }

/-- Network environment: WiFi disconnected at report time. -/
def envWifiDown : PostEnv := ⟨false, false, 0⟩

/-- Network environment: delivery answered with HTTP 302 (redirect). -/
def envRedirect : PostEnv := ⟨true, true, 302⟩

/-- Network environment: delivery answered with HTTP 201 (Created). -/
def envCreated : PostEnv := ⟨true, true, 201⟩

theorem aggregateUpTo_spec (s : EngineState) (n : ℕ) :
    aggregateUpTo s n =
      (((validPairsUpTo s n).map Prod.fst).sum,
       ((validPairsUpTo s n).map Prod.snd).sum,
       (validPairsUpTo s n).length) := by
  induction n with
  | zero => rfl
  | succ n ih =>
    rw [aggregateUpTo, validPairsUpTo, List.range_succ, List.foldl_append,
      List.filterMap_append]
    rw [aggregateUpTo, validPairsUpTo] at ih
    rw [ih]
    cases hT : s.temperatureBuffer n <;> cases hH : s.humidityBuffer n <;>
      simp [aggStep, hT, hH]

theorem aggregate_spec (s : EngineState) :
    aggregate s =
      (((validPairs s).map Prod.fst).sum,
       ((validPairs s).map Prod.snd).sum,
       (validPairs s).length) :=
  aggregateUpTo_spec s s.bufferIndex

theorem validPairsUpTo_congr (s s' : EngineState) (n : ℕ)
    (hT : ∀ i, i < n → s'.temperatureBuffer i = s.temperatureBuffer i)
    (hH : ∀ i, i < n → s'.humidityBuffer i = s.humidityBuffer i) :
    validPairsUpTo s' n = validPairsUpTo s n := by
  induction n with
  | zero => rfl
  | succ n ih =>
    have ih' := ih (fun i hi => hT i (Nat.lt_succ_of_lt hi))
      (fun i hi => hH i (Nat.lt_succ_of_lt hi))
    rw [validPairsUpTo, validPairsUpTo, List.range_succ, List.filterMap_append,
      List.filterMap_append]
    rw [validPairsUpTo, validPairsUpTo] at ih'
    rw [ih']
    congr 1
    simp [List.filterMap_cons, hT n (Nat.lt_succ_self n),
      hH n (Nat.lt_succ_self n)]

theorem validPairs_collect (s : EngineState) (t h : Option ℚ) :
    validPairs (collectSensorData s t h) =
      validPairs s ++
        (match validateTemp t, validateHumidity h with
         | some a, some b => [(a, b)]
         | _, _ => []) := by
  show validPairsUpTo (collectSensorData s t h) (s.bufferIndex + 1) = _
  rw [validPairsUpTo, List.range_succ, List.filterMap_append]
  have hpre : validPairsUpTo (collectSensorData s t h) s.bufferIndex =
      validPairsUpTo s s.bufferIndex := by
    apply validPairsUpTo_congr
    · intro i hi
      simp [collectSensorData, Nat.ne_of_lt hi]
    · intro i hi
      simp [collectSensorData, Nat.ne_of_lt hi]
  rw [validPairsUpTo] at hpre
  rw [hpre]
  have hT : (collectSensorData s t h).temperatureBuffer s.bufferIndex =
      validateTemp t := by simp [collectSensorData]
  have hH : (collectSensorData s t h).humidityBuffer s.bufferIndex =
      validateHumidity h := by simp [collectSensorData]
  rw [validPairs, validPairsUpTo]
  cases hvT : validateTemp t <;> cases hvH : validateHumidity h <;>
    simp [hT, hH, hvT, hvH]

theorem alignedFireCount_zeros (n : ℕ) :
    alignedFireCount 0 (List.replicate n 0) = 0 := by
  induction n with
  | zero => rfl
  | succ n ih =>
    rw [List.replicate_succ, alignedFireCount]
    simp [ih]

theorem repr_length_le_three : ∀ m : ℕ, m < 101 → (Nat.repr m).length ≤ 3 := by
  decide

theorem repr_length_le_two : ∀ m : ℕ, m < 100 → (Nat.repr m).length ≤ 2 := by
  decide

theorem round2_le (x : ℚ) (hx : |x| ≤ 100) : round2 x ≤ 10000 := by
  have hd : 0 < x.den := x.pos
  have hdq : (0 : ℚ) < (x.den : ℚ) := by exact_mod_cast hd
  have h1 : (x.num : ℚ) = x * (x.den : ℚ) :=
    (div_eq_iff (ne_of_gt hdq)).mp (Rat.num_div_den x)
  have habs : (x.num.natAbs : ℚ) = |x| * (x.den : ℚ) := by
    calc (x.num.natAbs : ℚ)
        = |(x.num : ℚ)| := by rw [Int.cast_natAbs, Int.cast_abs]
      _ = |x * (x.den : ℚ)| := by rw [h1]
      _ = |x| * |(x.den : ℚ)| := abs_mul _ _
      _ = |x| * (x.den : ℚ) := by rw [abs_of_pos hdq]
  have ha : x.num.natAbs ≤ 100 * x.den := by
    have : (x.num.natAbs : ℚ) ≤ 100 * (x.den : ℚ) := by
      rw [habs]
      exact mul_le_mul_of_nonneg_right hx hdq.le
    exact_mod_cast this
  have h2 : 200 * x.num.natAbs + x.den ≤ 20001 * x.den := by omega
  calc round2 x ≤ 20001 * x.den / (2 * x.den) := Nat.div_le_div_right h2
    _ = 10000 := by
      rw [mul_comm 20001 x.den, mul_comm 2 x.den, Nat.mul_div_mul_left _ _ hd]

theorem fmt2_length_le (x : ℚ) (hx : |x| ≤ 100) : (fmt2 x).length ≤ 8 := by
  have hr := round2_le x hx
  have hip : (Nat.repr (round2 x / 100)).length ≤ 3 :=
    repr_length_le_three _ (by omega)
  have hfr : (Nat.repr (round2 x % 100)).length ≤ 2 :=
    repr_length_le_two _ (by omega)
  have hsign : (if x < 0 then "-" else "").length ≤ 1 := by
    split <;> decide
  have hpad : (if round2 x % 100 < 10 then "0" else "").length ≤ 1 := by
    split <;> decide
  have hdot : (".").length = 1 := by decide
  rw [fmt2]
  simp only [String.length_append]
  omega

theorem c1Trace_reachable (n : ℕ) : Reachable (c1Trace n) := by
  induction n with
  | zero => exact Reachable.init
  | succ n ih => exact Reachable.step (c1Trace n) (c1Input n) ih

/-- C1: the claimed invariant `bufferIndex ≤ DATA_BUFFER_SIZE` is
violated by the code: the control loop reaches a state whose buffer
length exceeds the capacity, and the slot at index
`DATA_BUFFER_SIZE` (beyond the end of the 15-element C arrays) has
been written. Trace: with the clock unsynchronized and WiFi down, 16
fallback sampling ticks insert 16 samples; the full-buffer POST at
tick 15 fails (WiFi not connected), the buffer is retained, and tick
16 writes `temperatureBuffer[15]` — out of bounds in the C code. -/
theorem C1_capacity_invariant_violated :
    ∃ s : LoopState, Reachable s ∧ DATA_BUFFER_SIZE < s.engine.bufferIndex ∧
      (s.engine.temperatureBuffer DATA_BUFFER_SIZE).isSome = true := by
  refine ⟨c1Trace 16, c1Trace_reachable 16, ?_, ?_⟩ <;> decide

theorem jsonPayload_length (t h : ℚ) (ht : |t| ≤ 100) (hh : |h| ≤ 100) :
    (jsonPayload t h).length ≤ 61 := by
  have l1 := fmt2_length_le t ht
  have l2 := fmt2_length_le h hh
  have f1 : ("\x7b\"temperature\":").length = 15 := by decide
  have f2 : (",\"humidity\":").length = 12 := by decide
  have f3 : (",\"mcu\":\"sputnik1\"\x7d").length = 18 := by decide
  rw [jsonPayload]
  simp only [String.length_append]
  omega

/-- C9: for every average pair in the declared sensor ranges
(temperature in [-40, 85], humidity in [0, 100]), the serialized JSON
payload fits strictly inside the 128-byte `snprintf` buffer (at most
61 characters plus the terminating NUL), so it is never truncated. -/
theorem C9_payload_never_truncated (t h : ℚ)
    (ht1 : -40 ≤ t) (ht2 : t ≤ 85) (hh1 : 0 ≤ h) (hh2 : h ≤ 100) :
    (jsonPayload t h).length < 128 := by
  have ht : |t| ≤ 100 := abs_le.mpr ⟨by linarith, by linarith⟩
  have hh : |h| ≤ 100 := abs_le.mpr ⟨by linarith, hh2⟩
  have := jsonPayload_length t h ht hh
  omega

/-- Witness for C9 at the specification scenario's averages
(22.0 degC, 51.0 %). -/
theorem C9_payload_never_truncated_witness :
    ((-40 : ℚ) ≤ 22 ∧ (22 : ℚ) ≤ 85 ∧ (0 : ℚ) ≤ 51 ∧ (51 : ℚ) ≤ 100) ∧
      (jsonPayload 22 51).length < 128 :=
  ⟨⟨by norm_num, by norm_num, by norm_num, by norm_num⟩,
    C9_payload_never_truncated 22 51 (by norm_num) (by norm_num)
      (by norm_num) (by norm_num)⟩

/-- C2: whenever the buffer contains at least one valid pair, the
averages computed by `postAveragedDataToGoogleSheet` are the exact
arithmetic means over exactly the valid-pair samples:
sum of valid-pair temperatures (humidities) divided by the number of
valid pairs. -/
theorem C2_exact_mean_of_valid_pairs (s : EngineState) (env : PostEnv)
    (hvp : validPairs s ≠ []) :
    (postAveragedDataToGoogleSheet s env).computedAverages =
      some (((validPairs s).map Prod.fst).sum / ((validPairs s).length : ℚ),
            ((validPairs s).map Prod.snd).sum / ((validPairs s).length : ℚ)) := by
  have hb : s.bufferIndex ≠ 0 := by
    intro h0
    apply hvp
    rw [validPairs, h0]
    rfl
  have hcnt : (aggregate s).2.2 = (validPairs s).length := by
    rw [aggregate_spec]
  have hlen : (aggregate s).2.2 ≠ 0 := by
    rw [hcnt]
    exact fun h => hvp (List.length_eq_zero.mp h)
  have havg : postAverages s =
      (((validPairs s).map Prod.fst).sum / ((validPairs s).length : ℚ),
       ((validPairs s).map Prod.snd).sum / ((validPairs s).length : ℚ)) := by
    rw [postAverages, aggregate_spec]
  rw [postAveragedDataToGoogleSheet, if_neg hb, if_neg hlen]
  split_ifs <;> simp [havg]

/-- Witness for C2 at the specification scenario buffer
[(20.0,50.0), (NAN,60.0), (22.0,NAN), (24.0,52.0)]: 2 valid pairs out
of 4 samples, average (22.0, 51.0). -/
theorem C2_exact_mean_of_valid_pairs_witness :
    validPairs scenarioState = [(20, 50), (24, 52)] ∧
    scenarioState.bufferIndex = 4 ∧
    (validPairs scenarioState).length = 2 ∧
    (postAveragedDataToGoogleSheet scenarioState envWifiDown).computedAverages =
      some (22, 51) := by
  refine ⟨by decide, rfl, by decide, ?_⟩
  rw [C2_exact_mean_of_valid_pairs scenarioState envWifiDown (by decide)]
  rw [show validPairs scenarioState = [(20, 50), (24, 52)] from by decide]
  norm_num

/-- C3 counterexample: HTTP 201 is an acknowledgement in the 200 range,
but the code treats it as failure — the buffer (one valid sample) is
retained, not cleared, refuting "successful exactly when the status is
in the 200 range or 3xx". -/
theorem C3_counterexample_201 :
    ((200 : Int) ≤ 201 ∧ (201 : Int) < 300) ∧
    isSuccessStatus 201 = false ∧
    (postAveragedDataToGoogleSheet sampleState1 envCreated).outcome =
      PostOutcome.httpFailure 201 ∧
    (postAveragedDataToGoogleSheet sampleState1 envCreated).state.bufferIndex = 1 :=
  ⟨⟨by decide, by decide⟩, by decide, by decide, by decide⟩

/-- C3 (amended): a delivery attempt is treated as successful exactly
when the HTTP status equals 200 (`HTTP_CODE_OK`) or is a
redirect-class status in [300, 400); 2xx statuses other than 200 are
failures. On every successful delivery the buffer is cleared to empty:
`bufferIndex = 0` and every previously occupied slot reset to `NAN`. -/
theorem C3_success_is_200_or_redirect (s : EngineState) (env : PostEnv) :
    (isSuccessStatus env.httpResponseCode = true ↔
      (env.httpResponseCode = 200 ∨
        (300 ≤ env.httpResponseCode ∧ env.httpResponseCode < 400))) ∧
    (∀ c : Int,
      (postAveragedDataToGoogleSheet s env).outcome = PostOutcome.success c →
        (postAveragedDataToGoogleSheet s env).state.bufferIndex = 0 ∧
        ∀ i, i < s.bufferIndex →
          (postAveragedDataToGoogleSheet s env).state.temperatureBuffer i = none ∧
          (postAveragedDataToGoogleSheet s env).state.humidityBuffer i = none) := by
  constructor
  · simp [isSuccessStatus, Bool.or_eq_true, Bool.and_eq_true,
      decide_eq_true_eq, beq_iff_eq]
  · intro c hc
    unfold postAveragedDataToGoogleSheet at hc ⊢
    split_ifs at hc ⊢
    exact ⟨rfl, fun i hi =>
      ⟨by simp [clearBuffer, hi], by simp [clearBuffer, hi]⟩⟩

/-- Witness for C3 (amended) at a redirect answer HTTP 302: delivery
succeeds and the one-sample buffer is cleared. -/
theorem C3_success_is_200_or_redirect_witness :
    (postAveragedDataToGoogleSheet sampleState1 envRedirect).outcome =
      PostOutcome.success 302 ∧
    (postAveragedDataToGoogleSheet sampleState1 envRedirect).state.bufferIndex = 0 ∧
    (postAveragedDataToGoogleSheet sampleState1 envRedirect).state.temperatureBuffer 0 =
      none := by
  have h := (C3_success_is_200_or_redirect sampleState1 envRedirect).2 302 (by decide)
  exact ⟨by decide, h.1, (h.2 0 (by decide)).1⟩

/-- C4: every delivery outcome other than success — WiFi not connected
at report time, HTTP connection initialization failure, transport
failure or timeout, or a non-success status — leaves the whole engine
state (buffers, `bufferIndex`, cloud mirrors) unchanged, so the same
data is retried at the next report trigger. -/
theorem C4_failure_retains_buffer (s : EngineState) (env : PostEnv)
    (ho : (postAveragedDataToGoogleSheet s env).outcome = PostOutcome.wifiNotConnected ∨
      (postAveragedDataToGoogleSheet s env).outcome = PostOutcome.httpBeginFailed ∨
      (∃ c, (postAveragedDataToGoogleSheet s env).outcome = PostOutcome.transportError c) ∨
      (∃ c, (postAveragedDataToGoogleSheet s env).outcome = PostOutcome.httpFailure c)) :
    (postAveragedDataToGoogleSheet s env).state = s := by
  unfold postAveragedDataToGoogleSheet at ho ⊢
  split_ifs at ho ⊢ <;> first
    | rfl
    | (rcases ho with h | h | ⟨c, h⟩ | ⟨c, h⟩ <;> simp at h)

/-- Witness for C4: WiFi down at report time; the one-sample buffer is
byte-for-byte retained. -/
theorem C4_failure_retains_buffer_witness :
    (postAveragedDataToGoogleSheet sampleState1 envWifiDown).outcome =
      PostOutcome.wifiNotConnected ∧
    (postAveragedDataToGoogleSheet sampleState1 envWifiDown).state = sampleState1 :=
  ⟨by decide, C4_failure_retains_buffer sampleState1 envWifiDown (Or.inl (by decide))⟩

/-- C5: an empty buffer (`bufferIndex = 0`) makes
`postAveragedDataToGoogleSheet` return with no state change at all; a
non-empty buffer with zero valid pairs makes it clear the whole buffer
(outcome `noValidPairs`, no delivery attempted) — and the averaging
division is reached only when `validReadingsCount` is nonzero. -/
theorem C5_empty_vs_no_usable_data (s : EngineState) (env : PostEnv) :
    (s.bufferIndex = 0 →
      postAveragedDataToGoogleSheet s env = ⟨s, PostOutcome.emptyBuffer, none⟩) ∧
    (s.bufferIndex ≠ 0 → validReadingsCount s = 0 →
      (postAveragedDataToGoogleSheet s env).outcome = PostOutcome.noValidPairs ∧
      (postAveragedDataToGoogleSheet s env).computedAverages = none ∧
      (postAveragedDataToGoogleSheet s env).state.bufferIndex = 0 ∧
      ∀ i, i < s.bufferIndex →
        (postAveragedDataToGoogleSheet s env).state.temperatureBuffer i = none ∧
        (postAveragedDataToGoogleSheet s env).state.humidityBuffer i = none) ∧
    ((postAveragedDataToGoogleSheet s env).computedAverages ≠ none →
      validReadingsCount s ≠ 0) := by
  refine ⟨?_, ?_, ?_⟩
  · intro h0
    rw [postAveragedDataToGoogleSheet, if_pos h0]
  · intro h0 hv
    rw [validReadingsCount] at hv
    rw [postAveragedDataToGoogleSheet, if_neg h0, if_pos hv]
    exact ⟨rfl, rfl, rfl, fun i hi =>
      ⟨by simp [clearBuffer, hi], by simp [clearBuffer, hi]⟩⟩
  · intro hne hv
    rw [validReadingsCount] at hv
    apply hne
    by_cases h0 : s.bufferIndex = 0
    · rw [postAveragedDataToGoogleSheet, if_pos h0]
    · rw [postAveragedDataToGoogleSheet, if_neg h0, if_pos hv]

/-- Witness for C5 at a two-sample buffer with no valid pair: the
buffer is cleared without any delivery attempt. -/
theorem C5_empty_vs_no_usable_data_witness :
    noPairState.bufferIndex = 2 ∧ validReadingsCount noPairState = 0 ∧
    (postAveragedDataToGoogleSheet noPairState envRedirect).outcome =
      PostOutcome.noValidPairs ∧
    (postAveragedDataToGoogleSheet noPairState envRedirect).state.bufferIndex = 0 := by
  have h := (C5_empty_vs_no_usable_data noPairState envRedirect).2.1
    (by decide) (by decide)
  exact ⟨rfl, by decide, h.1, h.2.2.1⟩

/-- C6 counterexample: the legacy `Sputnik.ino` loop (lines 42-43)
assigns the raw reading to the cloud mirrors unconditionally; with
last-known-good mirrors (25.0, 50.0) and an unreadable (`NAN`)
reading, the invalid reading overwrites both mirrors. -/
theorem C6_counterexample_legacy_overwrite :
    legacyLoopSample (some 25) (some 50) none none ≠ (some 25, some 50) ∧
    (legacyLoopSample (some 25) (some 50) none none).1 = none ∧
    (legacyLoopSample (some 25) (some 50) none none).2 = none :=
  ⟨by decide, rfl, rfl⟩

/-- C6 (amended): in `collectSensorData` — the current firmware
(sputnik.ino and its revision) — each cloud mirror is assigned exactly
the newly validated value when that field is valid, and is left
unchanged when the new reading for that field is invalid; only the
legacy `Sputnik.ino` loop assigns the raw reading unconditionally. -/
theorem C6_mirror_update_guarded (s : EngineState) (t h : Option ℚ) :
    (validateTemp t = none → (collectSensorData s t h).dhtTemp = s.dhtTemp) ∧
    (∀ v : ℚ, validateTemp t = some v →
      (collectSensorData s t h).dhtTemp = some v) ∧
    (validateHumidity h = none → (collectSensorData s t h).dhtHumi = s.dhtHumi) ∧
    (∀ v : ℚ, validateHumidity h = some v →
      (collectSensorData s t h).dhtHumi = some v) := by
  refine ⟨?_, ?_, ?_, ?_⟩
  · intro hv
    simp [collectSensorData, hv]
  · intro v hv
    simp [collectSensorData, hv]
  · intro hv
    simp [collectSensorData, hv]
  · intro v hv
    simp [collectSensorData, hv]

/-- Witness for C6 (amended): an unreadable temperature paired with a
valid humidity of 55 %: the temperature mirror keeps its old value,
the humidity mirror takes the new one. -/
theorem C6_mirror_update_guarded_witness :
    validateTemp (none : Option ℚ) = none ∧
    validateHumidity (some 55) = some 55 ∧
    (collectSensorData initEngine none (some 55)).dhtTemp = initEngine.dhtTemp ∧
    (collectSensorData initEngine none (some 55)).dhtHumi = some 55 := by
  have h := C6_mirror_update_guarded initEngine none (some 55)
  exact ⟨rfl, by decide, h.1 rfl, h.2.2.2 55 (by decide)⟩

/-- C7 counterexample: the legacy `Sputnik.ino` loop's sampling guard
`tm_sec == 0 || millis() - previousMillis >= 60000` fires on every
polling tick of the same second-zero window, not once per minute
boundary: two consecutive ticks 200 ms apart (both observing
`tm_sec = 0`, the first having just reset `previousMillis`) both
sample. -/
theorem C7_counterexample_legacy_not_debounced :
    legacyShouldSample 0 10000 0 = true ∧
    legacyShouldSample 0 10200 10000 = true :=
  ⟨by decide, by decide⟩

/-- C7 (amended): in the revised loop (`unnamed/part_000`), which
remembers the previous tick's second in `lastSecond`, sampling is
debounced: across any run of consecutive ticks all observing
`tm_sec = 0`, entered with `lastSecond ≠ 0`, the guard fires on the
first tick, and the total number of `collectSensorData` invocations in
the window is exactly 1. -/
theorem C7_aligned_sampling_debounced (n : ℕ) (l : Int) (hl : l ≠ 0) :
    ((0 : ℕ) == 0 && l != 0) = true ∧
    alignedFireCount l (List.replicate (n + 1) 0) = 1 := by
  have hbne : (l != 0) = true := bne_iff_ne.mpr hl
  constructor
  · simp [hbne]
  · rw [List.replicate_succ, alignedFireCount]
    simp [hbne, Int.ofNat_zero, alignedFireCount_zeros]

/-- Witness for C7 (amended): entering a six-tick second-zero window
from second 59, the guard fires exactly once. -/
theorem C7_aligned_sampling_debounced_witness :
    ((59 : Int) ≠ 0) ∧ ((0 : ℕ) == 0 && (59 : Int) != 0) = true ∧
    alignedFireCount 59 (List.replicate 6 0) = 1 := by
  have h := C7_aligned_sampling_debounced 5 59 (by decide)
  exact ⟨by decide, h.1, h.2⟩

/-- C8: validation happens at sample-creation time: the value stored
in the buffer slot is exactly the validated reading; a reading that is
unreadable (`NAN`) or out of declared range (temperature outside
[-40, 85], humidity outside [0, 100]) is stored as the invalid marker
`NAN`, and a stored valid value is always the raw in-range reading
itself. -/
theorem C8_validation_at_sample_creation (s : EngineState) (t h : Option ℚ) :
    ((collectSensorData s t h).temperatureBuffer s.bufferIndex = validateTemp t) ∧
    ((collectSensorData s t h).humidityBuffer s.bufferIndex = validateHumidity h) ∧
    (∀ v : ℚ, validateTemp t = some v → t = some v ∧ -40 ≤ v ∧ v ≤ 85) ∧
    (∀ v : ℚ, validateHumidity h = some v → h = some v ∧ 0 ≤ v ∧ v ≤ 100) ∧
    (∀ v : ℚ, t = some v → (v < -40 ∨ 85 < v) → validateTemp t = none) ∧
    (∀ v : ℚ, h = some v → (v < 0 ∨ 100 < v) → validateHumidity h = none) ∧
    (t = none → validateTemp t = none) ∧
    (h = none → validateHumidity h = none) := by
  refine ⟨by simp [collectSensorData], by simp [collectSensorData],
    ?_, ?_, ?_, ?_, fun h0 => by rw [h0]; rfl, fun h0 => by rw [h0]; rfl⟩
  · intro v hv
    cases t with
    | none => simp [validateTemp] at hv
    | some w =>
      simp only [validateTemp] at hv
      split_ifs at hv with hcond
      injection hv with hv
      subst hv
      push_neg at hcond
      exact ⟨rfl, hcond.1, hcond.2⟩
  · intro v hv
    cases h with
    | none => simp [validateHumidity] at hv
    | some w =>
      simp only [validateHumidity] at hv
      split_ifs at hv with hcond
      injection hv with hv
      subst hv
      push_neg at hcond
      exact ⟨rfl, hcond.1, hcond.2⟩
  · intro v hv hout
    subst hv
    simp only [validateTemp]
    rw [if_pos hout]
  · intro v hv hout
    subst hv
    simp only [validateHumidity]
    rw [if_pos hout]

/-- Witness for C8: a raw reading (200.0 degC, 101.0 %), both fields
out of range: the stored sample holds `NAN` in both slots, never the
raw numbers. -/
theorem C8_validation_at_sample_creation_witness :
    validateTemp (some 200) = none ∧ validateHumidity (some 101) = none ∧
    (collectSensorData initEngine (some 200) (some 101)).temperatureBuffer 0 = none ∧
    (collectSensorData initEngine (some 200) (some 101)).humidityBuffer 0 = none := by
  obtain ⟨h1, h2, _, _, h5, h6, _, _⟩ :=
    C8_validation_at_sample_creation initEngine (some 200) (some 101)
  have hT : validateTemp (some 200) = none := h5 200 rfl (Or.inr (by decide))
  have hH : validateHumidity (some 101) = none := h6 101 rfl (Or.inr (by decide))
  exact ⟨hT, hH, h1.trans hT, h2.trans hH⟩

/-- C10: a sample with exactly one valid field — in either
orientation: a valid temperature paired with an invalid humidity, or
an invalid temperature paired with a valid humidity — still updates
the cloud mirror of the valid field and leaves the other mirror
unchanged, yet contributes to neither aggregation sum nor the
valid-pair count: mirror updates use per-field validity, aggregation
uses per-pair validity. -/
theorem C10_single_valid_field (s : EngineState) (t h : Option ℚ) :
    (∀ v : ℚ, validateTemp t = some v → validateHumidity h = none →
      (collectSensorData s t h).dhtTemp = some v ∧
      (collectSensorData s t h).dhtHumi = s.dhtHumi ∧
      validPairs (collectSensorData s t h) = validPairs s ∧
      aggregate (collectSensorData s t h) = aggregate s) ∧
    (∀ v : ℚ, validateTemp t = none → validateHumidity h = some v →
      (collectSensorData s t h).dhtTemp = s.dhtTemp ∧
      (collectSensorData s t h).dhtHumi = some v ∧
      validPairs (collectSensorData s t h) = validPairs s ∧
      aggregate (collectSensorData s t h) = aggregate s) := by
  constructor
  · intro v hT hH
    have hvp : validPairs (collectSensorData s t h) = validPairs s := by
      rw [validPairs_collect s t h, hT, hH]
      simp
    refine ⟨?_, ?_, hvp, ?_⟩
    · simp [collectSensorData, hT]
    · simp [collectSensorData, hH]
    · rw [aggregate_spec, aggregate_spec, hvp]
  · intro v hT hH
    have hvp : validPairs (collectSensorData s t h) = validPairs s := by
      rw [validPairs_collect s t h, hT, hH]
      simp
    refine ⟨?_, ?_, hvp, ?_⟩
    · simp [collectSensorData, hT]
    · simp [collectSensorData, hH]
    · rw [aggregate_spec, aggregate_spec, hvp]

/-- Witness for C10, both orientations: inserting (30.0 degC, `NAN`)
into the empty buffer updates the temperature mirror, keeps the
humidity mirror, and leaves the aggregation result untouched;
inserting (`NAN`, 40.0 %) updates the humidity mirror, keeps the
temperature mirror, and likewise leaves the aggregation result
untouched. -/
theorem C10_single_valid_field_witness :
    (validateTemp (some 30) = some 30 ∧
      validateHumidity (none : Option ℚ) = none ∧
      (collectSensorData initEngine (some 30) none).dhtTemp = some 30 ∧
      (collectSensorData initEngine (some 30) none).dhtHumi = initEngine.dhtHumi ∧
      aggregate (collectSensorData initEngine (some 30) none) =
        aggregate initEngine) ∧
    (validateTemp (none : Option ℚ) = none ∧
      validateHumidity (some 40) = some 40 ∧
      (collectSensorData initEngine none (some 40)).dhtTemp = initEngine.dhtTemp ∧
      (collectSensorData initEngine none (some 40)).dhtHumi = some 40 ∧
      aggregate (collectSensorData initEngine none (some 40)) =
        aggregate initEngine) := by
  have h1 := (C10_single_valid_field initEngine (some 30) none).1 30 (by decide) rfl
  have h2 := (C10_single_valid_field initEngine none (some 40)).2 40 rfl (by decide)
  exact ⟨⟨by decide, rfl, h1.1, h1.2.1, h1.2.2.2⟩,
    ⟨rfl, by decide, h2.1, h2.2.1, h2.2.2.2⟩⟩
